import Mathlib

/-!
Shallow embedding of the SauceDemo browser-test framework core:
the page interaction layer (core/base_page.py), the browser session
manager (core/browser_handler.py), the configuration loader
(core/config_loader.py) and the by-name lookup operations of the cart
and inventory page objects (pages/cart_page.py, pages/inventory_page.py).

Calls into the Playwright engine are abstracted by an environment record
whose fields give the outcome (value or raised exception, carried as a
message string) of each underlying call; the Python methods are then
translated statement by statement over that environment.
-/

namespace SauceDemo

/-- Single-quote character, used where the Python code formats messages
with quoted names. -/
def sq : String := "\x27"

/-- Python truthiness fallback for an optional integer timeout:
`timeout or default` yields the default when the timeout is absent (None)
or zero (falsy). -/
def pyOrNat (t : Option Nat) (d : Nat) : Nat :=
  match t with
  | none => d
  | some n => if n = 0 then d else n

/-- Python `x or ""` applied to an optional string: absent (None) gives
the empty string, otherwise the string itself. -/
def pyStrOr (t : Option String) : String :=
  match t with
  | none => ""
  | some s => s

/-- Result of one call into the browser automation engine: a value, or a
raised exception carried as its message. -/
abbrev PwRes (α : Type) := Except String α

/-- Boolean test that an engine call returned normally. -/
def isOkB {α : Type} : PwRes α → Bool
  | Except.ok _ => true
  | Except.error _ => false

/-- Boolean test that an engine call raised. -/
def isErrB {α : Type} : PwRes α → Bool
  | Except.ok _ => false
  | Except.error _ => true

/-- Element wait states passed to `element.wait_for`. -/
inductive WaitState where
  | visible
  | hidden
  | attached
deriving DecidableEq, Repr

/-- Environment abstracting the live Playwright page and its element
handles as consumed by BasePage. `defaultTimeout` is the configured page
timeout (`self.timeout`); `selMatches sel` says whether the selector
currently matches an element; the remaining fields give the outcome of
each underlying engine call. -/
structure PageEnv where
  defaultTimeout : Nat
  selMatches : String → Bool
  waitFor : String → WaitState → Nat → PwRes Unit
  isVisibleQ : String → PwRes Bool
  isEnabledQ : String → PwRes Bool
  textContentQ : String → PwRes (Option String)
  getAttributeQ : String → String → PwRes (Option String)
  clickE : String → PwRes Unit
  clearE : String → PwRes Unit
  fillE : String → String → PwRes Unit
  selectE : String → String → PwRes Unit
  hoverE : String → PwRes Unit

/-- Engine semantics the embedding relies on for selectors with no
matching element: waiting for visibility times out (raises), and the
`is_enabled` query raises after its implicit wait. -/
def PageEnv.WF (env : PageEnv) : Prop :=
  ∀ sel t, env.selMatches sel = false →
    isErrB (env.waitFor sel WaitState.visible t) = true ∧
    isErrB (env.isEnabledQ sel) = true

/-- BasePage.click_element: wait for visibility with the Python
`timeout or self.timeout` fallback, then click; any failure is logged
and re-raised. -/
def click_element (env : PageEnv) (selector : String) (timeout : Option Nat) : PwRes Unit := do
  env.waitFor selector WaitState.visible (pyOrNat timeout env.defaultTimeout)
  env.clickE selector

/-- BasePage.fill_input: wait for visibility, clear, then fill; failures
re-raise. -/
def fill_input (env : PageEnv) (selector : String) (value : String)
    (timeout : Option Nat) : PwRes Unit := do
  env.waitFor selector WaitState.visible (pyOrNat timeout env.defaultTimeout)
  env.clearE selector
  env.fillE selector value

/-- BasePage.get_text: wait for visibility, then return
`element.text_content() or ""`; failures re-raise. Note the source does
not strip the text. -/
def get_text (env : PageEnv) (selector : String) (timeout : Option Nat) : PwRes String := do
  env.waitFor selector WaitState.visible (pyOrNat timeout env.defaultTimeout)
  let t ← env.textContentQ selector
  pure (pyStrOr t)

/-- BasePage.get_attribute: wait for the attached state, then read the
attribute; failures re-raise. -/
def get_attribute (env : PageEnv) (selector : String) (attr : String)
    (timeout : Option Nat) : PwRes (Option String) := do
  env.waitFor selector WaitState.attached (pyOrNat timeout env.defaultTimeout)
  env.getAttributeQ selector attr

/-- BasePage.is_element_visible: wait for visibility with the shorter
5000 ms fallback, then query visibility; any exception anywhere in the
body is converted to a normal `false` return. -/
def is_element_visible (env : PageEnv) (selector : String) (timeout : Option Nat) : PwRes Bool :=
  match env.waitFor selector WaitState.visible (pyOrNat timeout 5000) with
  | Except.error _ => Except.ok false
  | Except.ok _ =>
    match env.isVisibleQ selector with
    | Except.error _ => Except.ok false
    | Except.ok b => Except.ok b

/-- BasePage.is_element_enabled: query enabledness; any exception is
converted to a normal `false` return. -/
def is_element_enabled (env : PageEnv) (selector : String) : PwRes Bool :=
  match env.isEnabledQ selector with
  | Except.error _ => Except.ok false
  | Except.ok b => Except.ok b

/-- BasePage.wait_for_element_visible: block until visible or re-raise
the timeout failure. -/
def wait_for_element_visible (env : PageEnv) (selector : String)
    (timeout : Option Nat) : PwRes Unit :=
  env.waitFor selector WaitState.visible (pyOrNat timeout env.defaultTimeout)

/-- BasePage.wait_for_element_hidden: block until hidden or re-raise the
timeout failure. -/
def wait_for_element_hidden (env : PageEnv) (selector : String)
    (timeout : Option Nat) : PwRes Unit :=
  env.waitFor selector WaitState.hidden (pyOrNat timeout env.defaultTimeout)

/-- BasePage.select_dropdown_option: wait for visibility, then select
the option by value; failures re-raise. -/
def select_dropdown_option (env : PageEnv) (selector : String) (value : String)
    (timeout : Option Nat) : PwRes Unit := do
  env.waitFor selector WaitState.visible (pyOrNat timeout env.defaultTimeout)
  env.selectE selector value

/-- BasePage.hover_element: wait for visibility, then hover; failures
re-raise. -/
def hover_element (env : PageEnv) (selector : String) (timeout : Option Nat) : PwRes Unit := do
  env.waitFor selector WaitState.visible (pyOrNat timeout env.defaultTimeout)
  env.hoverE selector

/-- Mutable fields of the BrowserHandler singleton: the four optional
engine handles and the initialized flag. Handles are modelled by their
presence; cleanup never sets them back to none, matching the source. -/
structure BHState where
  playwright : Option Unit
  browser : Option Unit
  context : Option Unit
  page : Option Unit
  is_initialized : Bool
deriving DecidableEq, Repr

/-- The freshly constructed handler: no handles, not initialized. -/
def BHState.init : BHState :=
  { playwright := none, browser := none, context := none, page := none,
    is_initialized := false }

/-- A fully started handler: all handles live, initialized. -/
def BHState.ready : BHState :=
  { playwright := some (), browser := some (), context := some (), page := some (),
    is_initialized := true }

/-- Teardown steps of BrowserHandler.cleanup, in source order. -/
inductive Step where
  | closePage
  | closeContext
  | closeBrowser
  | stopPlaywright
deriving DecidableEq, Repr

/-- Environment for cleanup: whether each close or stop call raises when
it is invoked. -/
structure CloseEnv where
  pageCloseFails : Bool
  contextCloseFails : Bool
  browserCloseFails : Bool
  playwrightStopFails : Bool
deriving DecidableEq, Repr

/-- The environment in which every teardown call returns normally. -/
def CloseEnv.ok : CloseEnv :=
  { pageCloseFails := false, contextCloseFails := false,
    browserCloseFails := false, playwrightStopFails := false }

/-- The try block of BrowserHandler.cleanup: each handle that is present
is closed in order inside one guarded block, then the initialized flag is
cleared. A raising step aborts the block at that point; the error carries
the message and the steps attempted so far. No handle field is reset. -/
def cleanupTry (env : CloseEnv) (s : BHState) : Except (String × List Step) (BHState × List Step) :=
  let a1 : List Step := if s.page.isSome then [Step.closePage] else []
  if s.page.isSome && env.pageCloseFails then
    Except.error ("page close failed", a1)
  else
    let a2 := a1 ++ (if s.context.isSome then [Step.closeContext] else [])
    if s.context.isSome && env.contextCloseFails then
      Except.error ("context close failed", a2)
    else
      let a3 := a2 ++ (if s.browser.isSome then [Step.closeBrowser] else [])
      if s.browser.isSome && env.browserCloseFails then
        Except.error ("browser close failed", a3)
      else
        let a4 := a3 ++ (if s.playwright.isSome then [Step.stopPlaywright] else [])
        if s.playwright.isSome && env.playwrightStopFails then
          Except.error ("playwright stop failed", a4)
        else
          Except.ok ({ s with is_initialized := false }, a4)

/-- BrowserHandler.cleanup as the caller sees it: the except clause only
logs, so a raise inside the block is swallowed and the method returns
normally with the state unchanged from before the block. The result
carries the post-state and the attempted steps. -/
def cleanup_method (env : CloseEnv) (s : BHState) : Except String (BHState × List Step) :=
  match cleanupTry env s with
  | Except.ok r => Except.ok r
  | Except.error (_, steps) => Except.ok (s, steps)

/-- The state and attempted steps cleanup leaves behind. -/
def cleanupRun (env : CloseEnv) (s : BHState) : BHState × List Step :=
  match cleanupTry env s with
  | Except.ok r => r
  | Except.error (_, steps) => (s, steps)

/-- The teardown steps cleanup would attempt from state `s` when no step
raises: one per live handle, in source order. -/
def liveSteps (s : BHState) : List Step :=
  (if s.page.isSome then [Step.closePage] else []) ++
  (if s.context.isSome then [Step.closeContext] else []) ++
  (if s.browser.isSome then [Step.closeBrowser] else []) ++
  (if s.playwright.isSome then [Step.stopPlaywright] else [])

/-- Errors a BrowserHandler session operation can raise: the guard
RuntimeError for a session that is not ready, or a re-raised engine
failure. -/
inductive BErr where
  | sessionNotReady
  | opFailed (msg : String)
deriving DecidableEq, Repr

/-- Lift an engine outcome into a session operation outcome. -/
def liftPw {α : Type} : PwRes α → Except BErr α
  | Except.ok a => Except.ok a
  | Except.error m => Except.error (BErr.opFailed m)

/-- The readiness guard shared by every session operation:
`if not self._is_initialized or not self._page: raise RuntimeError`. -/
def requireReady (s : BHState) : Except BErr Unit :=
  if !s.is_initialized || s.page.isNone then Except.error BErr.sessionNotReady
  else Except.ok ()

/-- Environment abstracting the live page for the session operations:
outcome of goto, evaluate, reload, wait_for_load_state and screenshot,
plus the url property and the title call. -/
structure SessionEnv where
  gotoE : String → PwRes Unit
  evalE : String → PwRes String
  urlV : String
  titleE : PwRes String
  reloadE : PwRes Unit
  waitLoadE : String → PwRes Unit
  shotE : String → PwRes Unit

/-- BrowserHandler.navigate_to: guard, then goto; failures re-raise. -/
def navigate_to (env : SessionEnv) (s : BHState) (url : String) : Except BErr Unit := do
  requireReady s
  liftPw (env.gotoE url)

/-- BrowserHandler.execute_javascript: guard, then evaluate. -/
def execute_javascript (env : SessionEnv) (s : BHState) (script : String) : Except BErr String := do
  requireReady s
  liftPw (env.evalE script)

/-- BrowserHandler.get_current_url: guard, then read the url property. -/
def get_current_url (env : SessionEnv) (s : BHState) : Except BErr String := do
  requireReady s
  pure env.urlV

/-- BrowserHandler.get_page_title: guard, then call title. -/
def get_page_title (env : SessionEnv) (s : BHState) : Except BErr String := do
  requireReady s
  liftPw env.titleE

/-- BrowserHandler.refresh_page: guard, then reload. -/
def refresh_page (env : SessionEnv) (s : BHState) : Except BErr Unit := do
  requireReady s
  liftPw env.reloadE

/-- BrowserHandler.wait_for_load_state: guard, then wait. -/
def wait_for_load_state (env : SessionEnv) (s : BHState) (state : String) : Except BErr Unit := do
  requireReady s
  liftPw (env.waitLoadE state)

/-- BrowserHandler.take_screenshot: guard, build the destination path,
write the PNG, return the path; failures re-raise. The directory is only
created after the guard passes. -/
def take_screenshot (env : SessionEnv) (s : BHState) (name : String) : Except BErr String := do
  requireReady s
  let path := "reports/screenshots/" ++ name ++ ".png"
  liftPw (env.shotE path)
  pure path

/-- Environment for start_browser: whether each stage of the launch
sequence raises when invoked. -/
structure StartEnv where
  startFails : Bool
  launchFails : Bool
  newContextFails : Bool
  newPageFails : Bool
deriving DecidableEq, Repr

/-- BrowserHandler.start_browser: an early normal return when already
initialized; otherwise the launch sequence assigns the handles one by
one, and on a raise at any stage the except clause runs cleanup on the
partial state and re-raises, the error carrying the state cleanup left. -/
def start_browser (env : StartEnv) (cenv : CloseEnv) (s : BHState) :
    Except (String × BHState) BHState :=
  if s.is_initialized then Except.ok s
  else if env.startFails then
    Except.error ("playwright start failed", (cleanupRun cenv s).1)
  else
    let s1 := { s with playwright := some () }
    if env.launchFails then
      Except.error ("browser launch failed", (cleanupRun cenv s1).1)
    else
      let s2 := { s1 with browser := some () }
      if env.newContextFails then
        Except.error ("new context failed", (cleanupRun cenv s2).1)
      else
        let s3 := { s2 with context := some () }
        if env.newPageFails then
          Except.error ("new page failed", (cleanupRun cenv s3).1)
        else
          Except.ok { s3 with page := some (), is_initialized := true }

/-- User credential record from config_loader.UserConfig. -/
structure UserConfig where
  username : String
  password : String
  description : String
deriving DecidableEq, Repr

/-- Python list repr of the known user names, as interpolated into the
KeyError message: single-quoted names, comma separated, in brackets. -/
def renderNames (names : List String) : String :=
  "[" ++ String.intercalate ", " (names.map (fun k => sq ++ k ++ sq)) ++ "]"

/-- The KeyError message of ConfigLoader.get_user for an unknown name. -/
def unknownUserMsg (username : String) (names : List String) : String :=
  "User " ++ sq ++ username ++ sq ++ " not found. Available users: " ++ renderNames names

/-- ConfigLoader.get_user over the loaded users mapping (a dict, modelled
as an association list with its insertion order): an unknown name raises
a KeyError listing every known name, a known name returns its record. -/
def get_user (users : List (String × UserConfig)) (username : String) :
    Except String UserConfig :=
  match users.lookup username with
  | none => Except.error (unknownUserMsg username (users.map Prod.fst))
  | some u => Except.ok u

/-- One matched item element as seen by the by-name lookup loops: the
text content of its name sub-element (None when the node has no text)
and an identifier distinguishing the element handle. -/
structure ItemEl where
  nameText : Option String
  elemId : Nat
deriving DecidableEq, Repr

/-- The loop in CartPage.remove_item_by_name: scan the matched cart item
elements in order, click remove inside the first whose name sub-element
text equals the target, and raise ValueError when none does. The ok value
is the element acted on. -/
def remove_item_by_name (items : List ItemEl) (product_name : String) :
    Except String ItemEl :=
  match items with
  | [] => Except.error ("Product " ++ sq ++ product_name ++ sq ++ " not found in cart")
  | it :: rest =>
    if it.nameText = some product_name then Except.ok it
    else remove_item_by_name rest product_name

/-- The loop in InventoryPage.add_product_to_cart_by_name: scan the
matched inventory item elements in order, click add-to-cart inside the
first whose name sub-element text equals the target, and raise ValueError
when none does. The ok value is the element acted on. -/
def add_product_to_cart_by_name (items : List ItemEl) (product_name : String) :
    Except String ItemEl :=
  match items with
  | [] => Except.error ("Product " ++ sq ++ product_name ++ sq ++ " not found on the page")
  | it :: rest =>
    if it.nameText = some product_name then Except.ok it
    else add_product_to_cart_by_name rest product_name

/-- The first element whose name sub-element text equals the target. -/
def firstMatch (items : List ItemEl) (product_name : String) : Option ItemEl :=
  items.find? (fun it => it.nameText = some product_name)

/-- A page environment in which no selector matches: every wait for
visibility times out and the enabled query raises. -/
def envNoMatch : PageEnv :=
  { defaultTimeout := 30000
    selMatches := fun _ => false
    waitFor := fun _ _ _ => Except.error "Timeout 5000ms exceeded"
    isVisibleQ := fun _ => Except.ok false
    isEnabledQ := fun _ => Except.error "Timeout 30000ms exceeded"
    textContentQ := fun _ => Except.error "Timeout 30000ms exceeded"
    getAttributeQ := fun _ _ => Except.error "Timeout 30000ms exceeded"
    clickE := fun _ => Except.error "Timeout 30000ms exceeded"
    clearE := fun _ => Except.error "Timeout 30000ms exceeded"
    fillE := fun _ _ => Except.error "Timeout 30000ms exceeded"
    selectE := fun _ _ => Except.error "Timeout 30000ms exceeded"
    hoverE := fun _ => Except.error "Timeout 30000ms exceeded" }

/-- A page environment whose one element is visible and carries text with
surrounding whitespace. -/
def envPaddedText : PageEnv :=
  { defaultTimeout := 30000
    selMatches := fun _ => true
    waitFor := fun _ _ _ => Except.ok ()
    isVisibleQ := fun _ => Except.ok true
    isEnabledQ := fun _ => Except.ok true
    textContentQ := fun _ => Except.ok (some "  Sauce Labs Backpack  ")
    getAttributeQ := fun _ _ => Except.ok none
    clickE := fun _ => Except.ok ()
    clearE := fun _ => Except.ok ()
    fillE := fun _ _ => Except.ok ()
    selectE := fun _ _ => Except.ok ()
    hoverE := fun _ => Except.ok () }

/-- Claim C1: the probe primitives is_element_visible and
is_element_enabled never raise for any selector and timeout; any
underlying failure is converted into a normal false return, and under the
engine semantics for unmatched selectors both return false whenever the
selector matches no element. -/
theorem C1_probe_primitives_exception_free (env : PageEnv) (sel : String) (t : Option Nat) :
    isOkB (is_element_visible env sel t) = true ∧
    isOkB (is_element_enabled env sel) = true ∧
    (PageEnv.WF env → env.selMatches sel = false →
      is_element_visible env sel t = Except.ok false ∧
      is_element_enabled env sel = Except.ok false) := by
  refine ⟨?_, ?_, ?_⟩
  · unfold is_element_visible
    cases env.waitFor sel WaitState.visible (pyOrNat t 5000) with
    | error e => rfl
    | ok u =>
      cases env.isVisibleQ sel with
      | error e => rfl
      | ok b => rfl
  · unfold is_element_enabled
    cases env.isEnabledQ sel with
    | error e => rfl
    | ok b => rfl
  · intro hwf hnm
    obtain ⟨h1, h2⟩ := hwf sel (pyOrNat t 5000) hnm
    constructor
    · unfold is_element_visible
      cases hw : env.waitFor sel WaitState.visible (pyOrNat t 5000) with
      | error e => rfl
      | ok u => rw [hw] at h1; simp [isErrB] at h1
    · unfold is_element_enabled
      cases he : env.isEnabledQ sel with
      | error e => rfl
      | ok b =>
        have h2x := hwf sel 0 hnm
        rw [he] at h2; simp [isErrB] at h2

/-- Witness for C1 at a concrete environment with no matching element. -/
theorem C1_witness :
    is_element_visible envNoMatch "#missing" none = Except.ok false ∧
    is_element_enabled envNoMatch "#missing" = Except.ok false :=
  (C1_probe_primitives_exception_free envNoMatch "#missing" none).2.2
    (fun _ _ _ => ⟨rfl, rfl⟩) rfl

/-- Counterexample to claim C2: get_text returns the raw text content
without stripping, so for an element whose text carries surrounding
whitespace the returned string differs from the trimmed text the claim
describes. -/
theorem C2_counterexample :
    get_text envPaddedText ".inventory_item_name" none =
      Except.ok "  Sauce Labs Backpack  " ∧
    ("  Sauce Labs Backpack  ").data.head? = some ' ' ∧
    ("  Sauce Labs Backpack  ").data.getLast? = some ' ' ∧
    (' ' : Char).isWhitespace = true := by
  refine ⟨rfl, ?_, ?_, ?_⟩ <;> decide

/-- Claim C2 as amended: when the wait for visibility succeeds and the
text-content query returns, get_text returns the raw text content
unchanged, and the empty string when the element has no text content. -/
theorem C2_amended_get_text_raw (env : PageEnv) (sel : String) (t : Option Nat)
    (c : Option String)
    (h1 : env.waitFor sel WaitState.visible (pyOrNat t env.defaultTimeout) = Except.ok ())
    (h2 : env.textContentQ sel = Except.ok c) :
    get_text env sel t = Except.ok (c.getD "") := by
  unfold get_text
  rw [h1, h2]
  cases c with
  | none => rfl
  | some s => rfl

/-- Witness for the amended C2 at a concrete environment. -/
theorem C2_amended_witness :
    get_text envPaddedText ".inventory_item_name" none =
      Except.ok ((some "  Sauce Labs Backpack  ").getD "") :=
  C2_amended_get_text_raw envPaddedText ".inventory_item_name" none
    (some "  Sauce Labs Backpack  ") rfl rfl

/-- Claim C10: for every interaction primitive taking an optional timeout,
an explicit timeout of zero is indistinguishable from omitting the
timeout, because the Python `timeout or default` fallback treats zero as
falsy and substitutes the default. -/
theorem C10_zero_timeout_equals_default (env : PageEnv) (sel attr v : String) :
    click_element env sel (some 0) = click_element env sel none ∧
    fill_input env sel v (some 0) = fill_input env sel v none ∧
    get_text env sel (some 0) = get_text env sel none ∧
    get_attribute env sel attr (some 0) = get_attribute env sel attr none ∧
    is_element_visible env sel (some 0) = is_element_visible env sel none ∧
    wait_for_element_visible env sel (some 0) = wait_for_element_visible env sel none ∧
    wait_for_element_hidden env sel (some 0) = wait_for_element_hidden env sel none ∧
    select_dropdown_option env sel v (some 0) = select_dropdown_option env sel v none ∧
    hover_element env sel (some 0) = hover_element env sel none :=
  ⟨rfl, rfl, rfl, rfl, rfl, rfl, rfl, rfl, rfl⟩

/-- Teardown environment in which closing the page raises. -/
def envPageCloseFail : CloseEnv :=
  { pageCloseFails := true, contextCloseFails := false,
    browserCloseFails := false, playwrightStopFails := false }

/-- Teardown environment in which closing the context raises. -/
def envContextCloseFail : CloseEnv :=
  { pageCloseFails := false, contextCloseFails := true,
    browserCloseFails := false, playwrightStopFails := false }

/-- Counterexample to claim C3: from the fully started state, when
closing the page raises, cleanup attempts no later step (only closePage
appears in the attempted steps) and leaves is_initialized true, so the
manager does not end Closed. -/
theorem C3_counterexample :
    (cleanupRun envPageCloseFail BHState.ready).2 = [Step.closePage] ∧
    (cleanupRun envPageCloseFail BHState.ready).1.is_initialized = true := by
  decide

/-- Claim C3 as amended: the four teardown steps run inside one guarded
block, so they are attempted independently only in the absence of
failures; when no step raises, every step with a live handle is attempted
in order and the manager ends Closed, while a raising step causes the
remaining steps to be skipped and leaves is_initialized unchanged. -/
theorem C3_amended_cleanup_steps (cenv : CloseEnv) (s : BHState)
    (h1 : cenv.pageCloseFails = false) (h2 : cenv.contextCloseFails = false)
    (h3 : cenv.browserCloseFails = false) (h4 : cenv.playwrightStopFails = false) :
    (cleanupRun cenv s).1 = { s with is_initialized := false } ∧
    (cleanupRun cenv s).2 = liveSteps s := by
  unfold cleanupRun cleanupTry liveSteps
  simp [h1, h2, h3, h4]

/-- Witness for the amended C3 at the no-failure environment and the
fully started state. -/
theorem C3_amended_witness :
    (cleanupRun CloseEnv.ok BHState.ready).1 = { BHState.ready with is_initialized := false } ∧
    (cleanupRun CloseEnv.ok BHState.ready).2 = liveSteps BHState.ready :=
  C3_amended_cleanup_steps CloseEnv.ok BHState.ready rfl rfl rfl rfl

/-- Counterexample to claim C4: from the fully started state, when
closing the context raises, the first cleanup call returns normally but
leaves the state unchanged, so the session is not Closed after the first
of the two calls. -/
theorem C4_counterexample :
    cleanup_method envContextCloseFail BHState.ready =
      Except.ok (BHState.ready, [Step.closePage, Step.closeContext]) ∧
    BHState.ready.is_initialized = true :=
  ⟨rfl, rfl⟩

/-- Claim C4 as amended: calling cleanup twice in succession produces no
error on either call from every starting state; when no teardown step
raises, the session state is Closed (is_initialized false) after each of
the two calls. -/
theorem C4_amended_cleanup_idempotent (cenv : CloseEnv) (s : BHState) :
    isOkB (cleanup_method cenv s) = true ∧
    isOkB (cleanup_method cenv (cleanupRun cenv s).1) = true ∧
    (cenv = CloseEnv.ok →
      (cleanupRun cenv s).1.is_initialized = false ∧
      (cleanupRun cenv (cleanupRun cenv s).1).1.is_initialized = false) := by
  refine ⟨?_, ?_, ?_⟩
  · unfold cleanup_method
    cases cleanupTry cenv s with
    | ok r => rfl
    | error e => rfl
  · unfold cleanup_method
    cases cleanupTry cenv (cleanupRun cenv s).1 with
    | ok r => rfl
    | error e => rfl
  · intro h
    subst h
    unfold cleanupRun cleanupTry
    simp [CloseEnv.ok]

/-- Witness for the amended C4 at the no-failure environment and the
fully started state. -/
theorem C4_amended_witness :
    isOkB (cleanup_method CloseEnv.ok BHState.ready) = true ∧
    isOkB (cleanup_method CloseEnv.ok (cleanupRun CloseEnv.ok BHState.ready).1) = true ∧
    (cleanupRun CloseEnv.ok BHState.ready).1.is_initialized = false ∧
    (cleanupRun CloseEnv.ok (cleanupRun CloseEnv.ok BHState.ready).1).1.is_initialized = false :=
  have h := C4_amended_cleanup_idempotent CloseEnv.ok BHState.ready
  ⟨h.1, h.2.1, h.2.2 rfl⟩

/-- Claim C9: cleanup never propagates an exception: from every state and
for every behavior of the underlying close and stop calls, the method
returns normally. -/
theorem C9_cleanup_never_raises (cenv : CloseEnv) (s : BHState) :
    isOkB (cleanup_method cenv s) = true := by
  unfold cleanup_method
  cases cleanupTry cenv s with
  | ok r => rfl
  | error e => rfl

/-- A concrete page environment for the session operations. -/
def envSession : SessionEnv :=
  { gotoE := fun _ => Except.ok ()
    evalE := fun _ => Except.ok "null"
    urlV := "https://www.saucedemo.com/"
    titleE := Except.ok "Swag Labs"
    reloadE := Except.ok ()
    waitLoadE := fun _ => Except.ok ()
    shotE := fun _ => Except.ok () }

/-- Claim C5: every session operation invoked while the handler is not
ready (flag cleared or no page) fails with the not-ready guard error, for
every behavior of the underlying engine, hence without performing any
action. -/
theorem C5_session_ops_guarded (env : SessionEnv) (s : BHState)
    (url script state name : String)
    (h : s.is_initialized = false ∨ s.page = none) :
    navigate_to env s url = Except.error BErr.sessionNotReady ∧
    execute_javascript env s script = Except.error BErr.sessionNotReady ∧
    get_current_url env s = Except.error BErr.sessionNotReady ∧
    get_page_title env s = Except.error BErr.sessionNotReady ∧
    refresh_page env s = Except.error BErr.sessionNotReady ∧
    wait_for_load_state env s state = Except.error BErr.sessionNotReady ∧
    take_screenshot env s name = Except.error BErr.sessionNotReady := by
  have hg : requireReady s = Except.error BErr.sessionNotReady := by
    unfold requireReady
    rcases h with h | h
    · simp [h]
    · simp [h]
  refine ⟨?_, ?_, ?_, ?_, ?_, ?_, ?_⟩ <;>
    (simp only [navigate_to, execute_javascript, get_current_url, get_page_title,
      refresh_page, wait_for_load_state, take_screenshot, hg]
     try rfl)

/-- Witness for C5 at the freshly constructed handler state. -/
theorem C5_witness :
    navigate_to envSession BHState.init "https://www.saucedemo.com/" =
      Except.error BErr.sessionNotReady ∧
    execute_javascript envSession BHState.init "1 + 1" =
      Except.error BErr.sessionNotReady ∧
    get_current_url envSession BHState.init = Except.error BErr.sessionNotReady ∧
    get_page_title envSession BHState.init = Except.error BErr.sessionNotReady ∧
    refresh_page envSession BHState.init = Except.error BErr.sessionNotReady ∧
    wait_for_load_state envSession BHState.init "networkidle" =
      Except.error BErr.sessionNotReady ∧
    take_screenshot envSession BHState.init "login_failure" =
      Except.error BErr.sessionNotReady :=
  C5_session_ops_guarded envSession BHState.init
    "https://www.saucedemo.com/" "1 + 1" "networkidle" "login_failure" (Or.inl rfl)

/-- Claim C8: calling start_browser when the handler is already
initialized returns normally at once with the state unchanged, for every
behavior of the launch and teardown environments. -/
theorem C8_start_when_ready_noop (senv : StartEnv) (cenv : CloseEnv) (s : BHState)
    (h : s.is_initialized = true) :
    start_browser senv cenv s = Except.ok s := by
  unfold start_browser
  simp [h]

/-- Launch environment in which every stage returns normally. -/
def envStartOk : StartEnv :=
  { startFails := false, launchFails := false,
    newContextFails := false, newPageFails := false }

/-- Witness for C8 at the fully started state. -/
theorem C8_witness :
    start_browser envStartOk CloseEnv.ok BHState.ready = Except.ok BHState.ready :=
  C8_start_when_ready_noop envStartOk CloseEnv.ok BHState.ready rfl

/-- Claim C6: both by-name lookup loops act on the first matched element
whose name sub-element text equals the target exactly, and raise the
not-found message naming the product when no element matches. -/
theorem C6_by_name_lookup_first_match (cart inv : List ItemEl) (nm : String) :
    remove_item_by_name cart nm =
      ((firstMatch cart nm).elim
        (Except.error ("Product " ++ sq ++ nm ++ sq ++ " not found in cart"))
        Except.ok) ∧
    add_product_to_cart_by_name inv nm =
      ((firstMatch inv nm).elim
        (Except.error ("Product " ++ sq ++ nm ++ sq ++ " not found on the page"))
        Except.ok) := by
  constructor
  · induction cart with
    | nil => rfl
    | cons it rest ih =>
      by_cases h : it.nameText = some nm
      · simp [remove_item_by_name, firstMatch, List.find?, h]
      · simp only [remove_item_by_name, firstMatch, List.find?] at ih ⊢
        simp [h, ih]
  · induction inv with
    | nil => rfl
    | cons it rest ih =>
      by_cases h : it.nameText = some nm
      · simp [add_product_to_cart_by_name, firstMatch, List.find?, h]
      · simp only [add_product_to_cart_by_name, firstMatch, List.find?] at ih ⊢
        simp [h, ih]

/-- The users mapping of the shipped configuration file, in file order. -/
def usersExample : List (String × UserConfig) :=
  [("standard",
    UserConfig.mk "standard_user" "secret_sauce" "Standard user with full access"),
   ("locked_out",
    UserConfig.mk "locked_out_user" "secret_sauce" "User that has been locked out")]

/-- Claim C7: get_user returns the record of a present name, and for an
absent name raises an error whose message lists every known user name. -/
theorem C7_get_user_lookup (users : List (String × UserConfig)) (name : String) :
    (users.lookup name = none →
      get_user users name =
        Except.error (unknownUserMsg name (users.map Prod.fst))) ∧
    (∀ u, users.lookup name = some u → get_user users name = Except.ok u) := by
  constructor
  · intro h
    unfold get_user
    rw [h]
  · intro u h
    unfold get_user
    rw [h]

/-- Witness for C7 at the concrete users mapping: an unknown name raises
the message enumerating both known names, and a known name returns its
credential record. -/
theorem C7_witness :
    get_user usersExample "ghost" =
      Except.error (unknownUserMsg "ghost" (usersExample.map Prod.fst)) ∧
    get_user usersExample "standard" =
      Except.ok (UserConfig.mk "standard_user" "secret_sauce"
        "Standard user with full access") :=
  ⟨(C7_get_user_lookup usersExample "ghost").1 (by decide),
   (C7_get_user_lookup usersExample "standard").2 _ (by decide)⟩

end SauceDemo
